import Mathlib

/-!
Shallow embedding of the invoice server actions of this repository
(`app/lib/actions.ts` and `app/lib/monitoring.ts`) together with proofs
about them.

Modelling conventions:
* A `FormData` value is the list of its (name, value) entries; `FormData.get`
  returns the first value bound to a name, or `none` when the field is absent,
  exactly as the web `FormData.get` API does (with `null` rendered as `none`).
* JavaScript numbers are modelled as exact rationals (`ℚ`); form values are
  decimal strings, and `jsNumber` models `Number()` on the decimal fragment
  (optional sign, integer part, optional fractional part, surrounding
  whitespace, empty string is `0`, non-numeric text is NaN, rendered `none`).
* Database calls, cache invalidation and redirects are effects; each action
  returns the ordered list of effects it performed together with its result.
  Whether the single SQL statement of an action succeeds is an input
  (`dbOk : Bool`), as is the current calendar date (`today : String`).
* `redirect` in Next.js never returns (it throws an internal control-flow
  exception), so a completed redirect is a distinguished result constructor.
* Zod schema checks (`min`, `gt`, `lte`, `enum`, `uuid`, `email`) are
  translated field by field from the schemas declared in `actions.ts`.
* String primitives are re-implemented over `String.data` (`List Char`) so
  that every definition evaluates by kernel reduction.
-/

namespace Dashboard

/-- UTF-8 byte size of a string (the model of `Blob` sizes). -/
def utf8Len (s : String) : Nat :=
  s.data.foldl (fun n c => n + c.utf8Size) 0

/-- Whitespace predicate used by JavaScript `Number()` trimming
(space, tab, line feed, carriage return, vertical tab, form feed). -/
def isWs (c : Char) : Bool :=
  c == ' ' || c.toNat == 9 || c.toNat == 10 || c.toNat == 13 ||
  c.toNat == 11 || c.toNat == 12

/-- Trim leading and trailing whitespace from a character list. -/
def trimChars (cs : List Char) : List Char :=
  ((cs.dropWhile isWs).reverse.dropWhile isWs).reverse

/-- Split a character list on a separator character. -/
def splitOnChar (sep : Char) : List Char → List (List Char)
  | [] => [[]]
  | c :: rest =>
    let r := splitOnChar sep rest
    if c == sep then [] :: r
    else
      match r with
      | [] => [[c]]
      | g :: gs => (c :: g) :: gs

/-- A form submission: the ordered (name, value) entries of a `FormData`. -/
structure FormData where
  entries : List (String × String)
deriving DecidableEq

/-- `FormData.get`: first value bound to `key`, or `none` (JS `null`). -/
def FormData.get (fd : FormData) (key : String) : Option String :=
  (fd.entries.find? (fun e => e.fst == key)).map (fun e => e.snd)

/-- JavaScript `formData.toString()`. `FormData` does not override
`Object.prototype.toString`, so the result is the constant tag string. -/
def FormData.jsToString (_ : FormData) : String :=
  "[object FormData]"

/-- Modelled from the spec: the serialized size, in bytes, of a form
submission (the notion the payload-size guard is specified against) —
the total UTF-8 size of its field names and values. -/
def FormData.serializedSize (fd : FormData) : Nat :=
  (fd.entries.map (fun e => utf8Len e.fst + utf8Len e.snd)).foldl
    (fun a b => a + b) 0

/-- `new Blob([s]).size`: the UTF-8 byte size of the string. -/
def blobSize (s : String) : Nat :=
  utf8Len s

/-- `validatePayloadSize` from `monitoring.ts`:
`new Blob([formData.toString()]).size <= maxSizeKB * 1024`. -/
def validatePayloadSize (formData : FormData) (maxSizeKB : Nat) : Bool :=
  decide (blobSize formData.jsToString ≤ maxSizeKB * 1024)

/-- `validatePayloadSize` at its default argument `maxSizeKB = 1`. -/
def validatePayloadSizeDefault (formData : FormData) : Bool :=
  validatePayloadSize formData 1

/-- Numeric value of a decimal digit character. -/
def digVal (c : Char) : Nat :=
  c.toNat - 48

/-- Value of a list of decimal digit characters, most significant first. -/
def natOfDigits (ds : List Char) : Nat :=
  ds.foldl (fun acc c => acc * 10 + digVal c) 0

/-- JavaScript `Number(s)` on the decimal fragment: trims whitespace, an
empty string is `0`, then optional sign, digits, optionally a dot and more
digits (at least one digit overall); anything else is NaN (`none`). -/
def jsNumber (s : String) : Option ℚ :=
  match trimChars s.data with
  | [] => some 0
  | t =>
    let (sign, cs) : ℚ × List Char :=
      match t with
      | '-' :: rest => ((-1 : ℚ), rest)
      | '+' :: rest => ((1 : ℚ), rest)
      | cs => ((1 : ℚ), cs)
    let intPart := cs.takeWhile Char.isDigit
    let rest := cs.dropWhile Char.isDigit
    match rest with
    | [] =>
        if intPart.isEmpty then none
        else some (sign * (natOfDigits intPart : ℚ))
    | '.' :: fracCs =>
        if fracCs.all Char.isDigit && !(intPart.isEmpty && fracCs.isEmpty) then
          some (sign * ((natOfDigits intPart : ℚ) +
            (natOfDigits fracCs : ℚ) / ((10 : ℚ) ^ fracCs.length)))
        else none
    | _ => none

/-- `z.coerce.number()` applied to a form value: `Number(null) = 0` for a
missing field, otherwise `Number` on the string (NaN fails the schema). -/
def jsCoerceNumber : Option String → Option ℚ
  | none => some 0
  | some s => jsNumber s

/-- Hexadecimal digit predicate. -/
def isHexDigit (c : Char) : Bool :=
  c.isDigit || ('a' ≤ c && c ≤ 'f') || ('A' ≤ c && c ≤ 'F')

/-- `IdSchema = z.string().uuid(...)`: five hyphen-separated groups of
hexadecimal digits of lengths 8, 4, 4, 4, 12. -/
def isValidUUID (s : String) : Bool :=
  match splitOnChar '-' s.data with
  | [a, b, c, d, e] =>
      a.length == 8 && b.length == 4 && c.length == 4 && d.length == 4 &&
      e.length == 12 &&
      (a.all isHexDigit && b.all isHexDigit && c.all isHexDigit &&
       d.all isHexDigit && e.all isHexDigit)
  | _ => false

/-- The invoice status enum `z.enum(['pending', 'paid'])`. -/
inductive Status
  | pending
  | paid
deriving DecidableEq

/-- Parse a form value against the status enum. -/
def parseStatus : Option String → Option Status
  | none => none
  | some s =>
      if s = "pending" then some .pending
      else if s = "paid" then some .paid
      else none

/-- The per-field error lists of `error.flatten().fieldErrors` for the
invoice form schema. -/
structure FieldErrors where
  customerId : List String
  amount : List String
  status : List String
deriving DecidableEq

/-- Issues raised by `z.string({invalid_type_error}).min(1, ...)` on the
`customerId` field. -/
def customerIdErrors : Option String → List String
  | none => ["Please select a customer."]
  | some s =>
      if 1 ≤ s.data.length then [] else ["Customer ID is required."]

/-- Issues raised by `z.coerce.number().gt(0, ...).lte(1000000, ...)` on the
`amount` field. -/
def amountErrors (v : Option String) : List String :=
  match jsCoerceNumber v with
  | none => ["Expected number, received nan"]
  | some q =>
      (if 0 < q then [] else ["Please enter an amount greater than $0."]) ++
      (if q ≤ 1000000 then [] else ["Amount cannot exceed $1,000,000."])

/-- Issues raised by `z.enum(['pending', 'paid'], {invalid_type_error})` on
the `status` field. -/
def statusErrors : Option String → List String
  | none => ["Please select an invoice status."]
  | some s =>
      if s = "pending" ∨ s = "paid" then []
      else ["Invalid enum value. Expected \x27pending\x27 | \x27paid\x27, received \x27" ++ s ++ "\x27"]

/-- The typed record produced by a successful `CreateInvoice.safeParse`
(also `UpdateInvoice.safeParse`: both omit `id` and `date`). -/
structure ParsedInvoiceForm where
  customerId : String
  amount : ℚ
  status : Status
deriving DecidableEq

/-- All field errors of a submission, bundled. -/
def mkFieldErrors (fd : FormData) : FieldErrors :=
  ⟨customerIdErrors (fd.get "customerId"),
   amountErrors (fd.get "amount"),
   statusErrors (fd.get "status")⟩

/-- `CreateInvoice.safeParse` (= `UpdateInvoice.safeParse`) applied to
`{customerId, amount, status}` read from the form. -/
def safeParseInvoiceForm (fd : FormData) : Except FieldErrors ParsedInvoiceForm :=
  match fd.get "customerId", jsCoerceNumber (fd.get "amount"),
        parseStatus (fd.get "status") with
  | some cid, some q, some st =>
      if 1 ≤ cid.data.length ∧ 0 < q ∧ q ≤ 1000000 then .ok ⟨cid, q, st⟩
      else .error (mkFieldErrors fd)
  | _, _, _ => .error (mkFieldErrors fd)

/-- The parameterized SQL statements issued by the actions. -/
inductive SqlStmt
  | insertRow (customerId : String) (amount : ℚ) (status : Status) (date : String)
  | updateRow (id : String) (customerId : String) (amount : ℚ) (status : Status)
  | deleteRow (id : String)
deriving DecidableEq

/-- Observable side effects of an action, in order. -/
inductive Effect
  | sql (stmt : SqlStmt)
  | revalidatePath (path : String)
  | redirect (path : String)
deriving DecidableEq

/-- The `State` result type of `createInvoice`/`updateInvoice`. -/
structure State where
  errors : Option FieldErrors
  message : Option String
deriving DecidableEq

/-- How an action invocation ends: with a returned `State`, or by the
non-returning `redirect` call. -/
inductive ActionResult
  | state (s : State)
  | redirected (path : String)
deriving DecidableEq

/-- An action run: its ordered effects and how it ended. -/
structure Run where
  effects : List Effect
  result : ActionResult
deriving DecidableEq

/-- `createInvoice(prevState, formData)` from `actions.ts`. `dbOk` says
whether the INSERT succeeds; `today` is `new Date().toISOString().split('T')[0]`. -/
def createInvoice (dbOk : Bool) (today : String) (formData : FormData) : Run :=
  if !validatePayloadSizeDefault formData then
    ⟨[], .state ⟨none, some "Request payload too large."⟩⟩
  else
    match safeParseInvoiceForm formData with
    | .error e =>
        ⟨[], .state ⟨some e, some "Missing Fields. Failed to Create Invoice."⟩⟩
    | .ok d =>
        let amountInCents := d.amount * 100
        let ins : SqlStmt := .insertRow d.customerId amountInCents d.status today
        if dbOk then
          ⟨[.sql ins, .revalidatePath "/dashboard/invoices",
            .redirect "/dashboard/invoices"],
           .redirected "/dashboard/invoices"⟩
        else
          ⟨[.sql ins], .state ⟨none, some "Database Error: Failed to Create Invoice."⟩⟩

/-- `updateInvoice(id, prevState, formData)` from `actions.ts`. -/
def updateInvoice (dbOk : Bool) (id : String) (formData : FormData) : Run :=
  if !isValidUUID id then
    ⟨[], .state ⟨none, some "Invalid ID format."⟩⟩
  else if !validatePayloadSizeDefault formData then
    ⟨[], .state ⟨none, some "Request payload too large."⟩⟩
  else
    match safeParseInvoiceForm formData with
    | .error e =>
        ⟨[], .state ⟨some e, some "Missing Fields. Failed to Update Invoice."⟩⟩
    | .ok d =>
        let upd : SqlStmt := .updateRow id d.customerId (d.amount * 100) d.status
        if dbOk then
          ⟨[.sql upd, .revalidatePath "/dashboard/invoices",
            .redirect "/dashboard/invoices"],
           .redirected "/dashboard/invoices"⟩
        else
          ⟨[.sql upd], .state ⟨none, some "Database Error: Failed to Update Invoice."⟩⟩

/-- Result of `deleteInvoice`: its effects and the returned message. -/
structure DeleteRun where
  effects : List Effect
  message : String
deriving DecidableEq

/-- `deleteInvoice(id)` from `actions.ts`: message-returning variant. -/
def deleteInvoice (dbOk : Bool) (id : String) : DeleteRun :=
  if !isValidUUID id then
    ⟨[], "Invalid ID format."⟩
  else if dbOk then
    ⟨[.sql (.deleteRow id), .revalidatePath "/dashboard/invoices"],
     "Deleted Invoice."⟩
  else
    ⟨[.sql (.deleteRow id)], "Database Error: Failed to Delete Invoice."⟩

/-- `deleteInvoiceAction(id)` from `actions.ts`: throwing variant.
`Except.error` is a thrown `Error` with the given message. -/
def deleteInvoiceAction (dbOk : Bool) (id : String) :
    List Effect × Except String Unit :=
  if !isValidUUID id then
    ([], .error "Invalid ID format.")
  else if dbOk then
    ([.sql (.deleteRow id), .revalidatePath "/dashboard/invoices"], .ok ())
  else
    ([.sql (.deleteRow id)], .error "Database Error: Failed to Delete Invoice.")

/-- Character allowed anywhere in the local part of the zod email pattern. -/
def isEmailLocalChar (c : Char) : Bool :=
  c.isAlphanum || c == '_' || c == Char.ofNat 39 || c == '+' || c == '-' ||
  c == '.'

/-- Character allowed as the final character of the local part. -/
def isEmailLocalLast (c : Char) : Bool :=
  c.isAlphanum || c == '_' || c == '+' || c == '-'

/-- Does the character list contain two consecutive dots? -/
def hasDoubleDot : List Char → Bool
  | c1 :: c2 :: rest => (c1 == '.' && c2 == '.') || hasDoubleDot (c2 :: rest)
  | _ => false

/-- A non-final domain label: alphanumeric head, alphanumeric or hyphen tail. -/
def emailLabelOk : List Char → Bool
  | [] => false
  | c :: rest => c.isAlphanum && rest.all (fun d => d.isAlphanum || d == '-')

/-- The final domain label: at least two letters. -/
def emailTldOk (l : List Char) : Bool :=
  decide (2 ≤ l.length) && l.all Char.isAlpha

/-- The domain of the zod email pattern: one or more labels, a dot, and a
final alphabetic label of length at least two. -/
def emailDomainOk (cs : List Char) : Bool :=
  match (splitOnChar '.' cs).reverse with
  | tld :: labels =>
      decide (1 ≤ labels.length) && emailTldOk tld && labels.all emailLabelOk
  | [] => false

/-- `z.string().email(...)`: the zod email pattern — no leading dot, no two
consecutive dots, exactly one `@`, a non-empty local part over the allowed
characters not ending in a dot or apostrophe, and a well-formed domain. -/
def zodEmailOk (s : String) : Bool :=
  let cs := s.data
  (match cs with
   | '.' :: _ => false
   | _ => true) &&
  !hasDoubleDot cs &&
  (match splitOnChar '@' cs with
   | [localPart, domain] =>
       !localPart.isEmpty && localPart.all isEmailLocalChar &&
       (match localPart.getLast? with
        | some c => isEmailLocalLast c
        | none => false) &&
       emailDomainOk domain
   | _ => false)

/-- The `email` rule of `AuthSchema`: `z.string().email(...).max(255, ...)`. -/
def authEmailOk (e : String) : Bool :=
  zodEmailOk e && decide (e.data.length ≤ 255)

/-- The `password` rule of `AuthSchema`: `z.string().min(6, ...).max(255, ...)`. -/
def authPasswordOk (p : String) : Bool :=
  decide (6 ≤ p.data.length) && decide (p.data.length ≤ 255)

/-- `AuthSchema.safeParse({email, password}).success`. -/
def authShapeOk (email password : Option String) : Bool :=
  match email, password with
  | some e, some p => authEmailOk e && authPasswordOk p
  | _, _ => false

/-- What the `signIn('credentials', ...)` provider call does: succeeds,
throws an `AuthError` with the given `type`, or throws some other error. -/
inductive ProviderOutcome
  | success
  | authError (errType : String)
  | otherError (err : String)
deriving DecidableEq

deriving instance DecidableEq for Except

/-- A run of `authenticate`: whether the provider was contacted, and its
result — `Except.ok` a returned value (`none` = `undefined`),
`Except.error` a re-raised exception. -/
structure AuthRun where
  providerCalled : Bool
  result : Except String (Option String)
deriving DecidableEq

/-- `authenticate(prevState, formData)` from `actions.ts`. -/
def authenticate (provider : ProviderOutcome) (formData : FormData) : AuthRun :=
  if !authShapeOk (formData.get "email") (formData.get "password") then
    ⟨false, .ok (some "Invalid input format.")⟩
  else
    match provider with
    | .success => ⟨true, .ok none⟩
    | .authError errType =>
        if errType = "CredentialsSignin" then
          ⟨true, .ok (some "Invalid credentials.")⟩
        else
          ⟨true, .ok (some "Something went wrong.")⟩
    | .otherError err => ⟨true, .error err⟩

/-- A sample create submission: the one of the testable-properties section. -/
def sampleCreateForm : FormData :=
  ⟨[("customerId", "f47ac10b-58cc-4372-a567-0e02b2c3d479"),
    ("amount", "15.50"), ("status", "pending")]⟩

/-- A validated submission whose dollar amount has three decimal places. -/
def fractionalCentForm : FormData :=
  ⟨[("customerId", "f47ac10b-58cc-4372-a567-0e02b2c3d479"),
    ("amount", "15.505"), ("status", "pending")]⟩

/-- A submission whose serialized size exceeds 1 KB. -/
def oversizedForm : FormData :=
  ⟨[("customerId", String.mk (List.replicate 1100 'a'))]⟩

section Proofs

attribute [local semireducible] Rat.mul Rat.inv Rat.add Rat.sub

example : isValidUUID "f47ac10b-58cc-4372-a567-0e02b2c3d479" = true := by decide
example : isValidUUID "not-a-uuid" = false := by decide
example : jsNumber "15.50" = some (31 / 2 : ℚ) := by decide
example : jsNumber "15.505" = some (3101 / 200 : ℚ) := by decide
example : jsNumber "" = some 0 := by decide
example : jsNumber "abc" = none := by decide
example : jsNumber "-5" = some (-5 : ℚ) := by decide
example : zodEmailOk "user@example.com" = true := by decide
example : zodEmailOk "" = false := by decide

/-- The payload-size guard accepts every submission at its default limit:
`formData.toString()` is the constant `"[object FormData]"` (15 bytes). -/
theorem validatePayloadSizeDefault_true (fd : FormData) :
    validatePayloadSizeDefault fd = true := by
  unfold validatePayloadSizeDefault validatePayloadSize blobSize FormData.jsToString
  decide

/-- C4: createInvoice on `{customerId: "<valid-uuid>", amount: "15.50",
status: "pending"}` (within the payload-size limit, database insert
succeeding) inserts one row with amount 1550, status pending and the
current calendar date, then invalidates the cache for
`/dashboard/invoices` and redirects there, in that order. -/
theorem C4_create_happy_path :
    sampleCreateForm.serializedSize ≤ 1024 ∧
    createInvoice true "2026-10-11" sampleCreateForm =
      ⟨[.sql (.insertRow "f47ac10b-58cc-4372-a567-0e02b2c3d479" 1550 .pending
          "2026-10-11"),
        .revalidatePath "/dashboard/invoices",
        .redirect "/dashboard/invoices"],
       .redirected "/dashboard/invoices"⟩ := by
  decide

/-- C3: for every id that is not a syntactically valid UUID, updateInvoice
and deleteInvoice return the message `Invalid ID format.` and issue no SQL
statement and no other effect, whatever the form data and the database
outcome. -/
theorem C3_invalid_id_rejected (id : String) (dbOk : Bool) (fd : FormData)
    (h : isValidUUID id = false) :
    updateInvoice dbOk id fd = ⟨[], .state ⟨none, some "Invalid ID format."⟩⟩ ∧
    deleteInvoice dbOk id = ⟨[], "Invalid ID format."⟩ := by
  constructor
  · unfold updateInvoice
    rw [h]
    rfl
  · unfold deleteInvoice
    rw [h]
    rfl

/-- Witness for C3 at the malformed id `"not-a-uuid"`. -/
theorem C3_invalid_id_rejected_witness :
    updateInvoice true "not-a-uuid" sampleCreateForm =
      ⟨[], .state ⟨none, some "Invalid ID format."⟩⟩ ∧
    deleteInvoice true "not-a-uuid" = ⟨[], "Invalid ID format."⟩ :=
  C3_invalid_id_rejected "not-a-uuid" true sampleCreateForm (by decide)

/-- C10: deleteInvoice is total and never throws: its message is always one
of the three fixed strings, and a database failure on a well-formed id is
converted to the database-error message. -/
theorem C10_delete_total (id : String) (dbOk : Bool) :
    ((deleteInvoice dbOk id).message = "Invalid ID format." ∨
     (deleteInvoice dbOk id).message = "Deleted Invoice." ∨
     (deleteInvoice dbOk id).message =
       "Database Error: Failed to Delete Invoice.") ∧
    (isValidUUID id = true → dbOk = false →
      (deleteInvoice dbOk id).message =
        "Database Error: Failed to Delete Invoice.") := by
  unfold deleteInvoice
  cases h : isValidUUID id <;> cases dbOk <;> simp

/-- Witness for C10: database failure on a well-formed id. -/
theorem C10_delete_total_witness :
    (deleteInvoice false "f47ac10b-58cc-4372-a567-0e02b2c3d479").message =
      "Database Error: Failed to Delete Invoice." :=
  (C10_delete_total "f47ac10b-58cc-4372-a567-0e02b2c3d479" false).2
    (by decide) rfl

/-- C7: deleteInvoice and deleteInvoiceAction perform the identical database
mutation and cache invalidation (identical effect lists for every id); for a
well-formed UUID they issue the same single DELETE keyed by the id followed
by the same cache invalidation, and they differ only in failure signaling —
the action variant throws where deleteInvoice returns a message. -/
theorem C7_delete_variants_agree (id : String) (dbOk : Bool) :
    (deleteInvoice dbOk id).effects = (deleteInvoiceAction dbOk id).fst ∧
    (isValidUUID id = true →
      (deleteInvoice dbOk id).effects =
        (if dbOk then
          [Effect.sql (.deleteRow id), Effect.revalidatePath "/dashboard/invoices"]
         else [Effect.sql (.deleteRow id)]) ∧
      ((deleteInvoiceAction dbOk id).snd = .ok () ↔
        (deleteInvoice dbOk id).message = "Deleted Invoice.") ∧
      (dbOk = false →
        (deleteInvoice dbOk id).message =
          "Database Error: Failed to Delete Invoice." ∧
        (deleteInvoiceAction dbOk id).snd =
          .error "Database Error: Failed to Delete Invoice.")) ∧
    (isValidUUID id = false →
      deleteInvoice dbOk id = ⟨[], "Invalid ID format."⟩ ∧
      deleteInvoiceAction dbOk id = ([], .error "Invalid ID format.")) := by
  unfold deleteInvoice deleteInvoiceAction
  cases h : isValidUUID id <;> cases dbOk <;> simp

/-- Witness for C7 at a well-formed UUID (both database outcomes) and at a
malformed id. -/
theorem C7_delete_variants_agree_witness :
    ((deleteInvoiceAction true "f47ac10b-58cc-4372-a567-0e02b2c3d479").snd =
        .ok () ↔
      (deleteInvoice true "f47ac10b-58cc-4372-a567-0e02b2c3d479").message =
        "Deleted Invoice.") ∧
    (deleteInvoiceAction false "not-a-uuid" = ([], .error "Invalid ID format.")) :=
  ⟨((C7_delete_variants_agree "f47ac10b-58cc-4372-a567-0e02b2c3d479" true).2.1
      (by decide)).2.1,
   ((C7_delete_variants_agree "not-a-uuid" false).2.2 (by decide)).2⟩

/-- C9: on successful sign-in, authenticate returns `undefined` (`none`):
for every input passing shape validation where the provider call does not
throw, the result is `undefined` and the provider was contacted. -/
theorem C9_auth_success_returns_undefined (fd : FormData)
    (h : authShapeOk (fd.get "email") (fd.get "password") = true) :
    authenticate .success fd = ⟨true, .ok none⟩ := by
  unfold authenticate
  rw [h]
  rfl

/-- Witness for C9 at a well-shaped login form. -/
theorem C9_auth_success_returns_undefined_witness :
    authenticate .success ⟨[("email", "user@example.com"),
      ("password", "secret123")]⟩ = ⟨true, .ok none⟩ :=
  C9_auth_success_returns_undefined
    ⟨[("email", "user@example.com"), ("password", "secret123")]⟩ (by decide)

/-- C6: authenticate returns `Invalid input format.` without calling the
sign-in provider whenever email/password fail shape validation; when the
provider raises an AuthError of type `CredentialsSignin` it returns
`Invalid credentials.`; for any other AuthError it returns
`Something went wrong.`; and any non-AuthError exception is re-raised
unhandled. -/
theorem C6_authenticate_error_taxonomy (fd : FormData)
    (provider : ProviderOutcome) :
    (authShapeOk (fd.get "email") (fd.get "password") = false →
      authenticate provider fd = ⟨false, .ok (some "Invalid input format.")⟩) ∧
    (authShapeOk (fd.get "email") (fd.get "password") = true →
      authenticate (.authError "CredentialsSignin") fd =
        ⟨true, .ok (some "Invalid credentials.")⟩ ∧
      (∀ errType, errType ≠ "CredentialsSignin" →
        authenticate (.authError errType) fd =
          ⟨true, .ok (some "Something went wrong.")⟩) ∧
      (∀ err, authenticate (.otherError err) fd = ⟨true, .error err⟩)) := by
  constructor
  · intro h
    unfold authenticate
    rw [h]
    cases provider <;> rfl
  · intro h
    refine ⟨?_, fun errType hne => ?_, fun err => ?_⟩
    · unfold authenticate
      rw [h]
      rfl
    · unfold authenticate
      rw [h]
      simp [hne]
    · unfold authenticate
      rw [h]
      rfl

/-- Witness for C6: an empty email is rejected without contacting the
provider; a well-shaped login against a credentials error yields the fixed
message. -/
theorem C6_authenticate_error_taxonomy_witness :
    authenticate (.authError "CredentialsSignin")
        ⟨[("email", ""), ("password", "secret123")]⟩ =
      ⟨false, .ok (some "Invalid input format.")⟩ ∧
    authenticate (.authError "CredentialsSignin")
        ⟨[("email", "user@example.com"), ("password", "secret123")]⟩ =
      ⟨true, .ok (some "Invalid credentials.")⟩ :=
  ⟨(C6_authenticate_error_taxonomy
      ⟨[("email", ""), ("password", "secret123")]⟩
      (.authError "CredentialsSignin")).1 (by decide),
   ((C6_authenticate_error_taxonomy
      ⟨[("email", "user@example.com"), ("password", "secret123")]⟩
      (.authError "CredentialsSignin")).2 (by decide)).1⟩

/-- C8: on every submission on which field validation fails, createInvoice
and updateInvoice return the per-field error map plus a message and perform
no effect at all: no SQL statement, no cache invalidation, no redirect. -/
theorem C8_validation_failure_no_mutation (dbOk : Bool) (today id : String)
    (fd : FormData) (e : FieldErrors)
    (h : safeParseInvoiceForm fd = .error e) :
    createInvoice dbOk today fd =
      ⟨[], .state ⟨some e, some "Missing Fields. Failed to Create Invoice."⟩⟩ ∧
    (isValidUUID id = true →
      updateInvoice dbOk id fd =
        ⟨[], .state ⟨some e, some "Missing Fields. Failed to Update Invoice."⟩⟩) := by
  constructor
  · unfold createInvoice
    rw [validatePayloadSizeDefault_true, h]
    rfl
  · intro hid
    unfold updateInvoice
    rw [hid, validatePayloadSizeDefault_true, h]
    rfl

/-- Witness for C8: the empty submission fails field validation and
produces no effect. -/
theorem C8_validation_failure_no_mutation_witness :
    createInvoice true "2026-10-11" ⟨[]⟩ =
      ⟨[], .state ⟨some ⟨["Please select a customer."],
          ["Please enter an amount greater than $0."],
          ["Please select an invoice status."]⟩,
        some "Missing Fields. Failed to Create Invoice."⟩⟩ ∧
    updateInvoice true "f47ac10b-58cc-4372-a567-0e02b2c3d479" ⟨[]⟩ =
      ⟨[], .state ⟨some ⟨["Please select a customer."],
          ["Please enter an amount greater than $0."],
          ["Please select an invoice status."]⟩,
        some "Missing Fields. Failed to Update Invoice."⟩⟩ :=
  ⟨(C8_validation_failure_no_mutation true "2026-10-11"
      "f47ac10b-58cc-4372-a567-0e02b2c3d479" ⟨[]⟩ _ (by decide)).1,
   (C8_validation_failure_no_mutation true "2026-10-11"
      "f47ac10b-58cc-4372-a567-0e02b2c3d479" ⟨[]⟩ _ (by decide)).2 (by decide)⟩

/-- C1 fails as stated: on the validated submission with amount `15.505`
(which passes validation: 0 < 15.505 ≤ 1,000,000) the value the INSERT
receives for the amount column is 15.505 × 100 = 1550.5 — not an integer,
different from trunc(15.505 × 100) = 1550 and from
round(15.505 × 100) = 1551: the code truncates nothing. -/
theorem C1_truncation_counterexample :
    safeParseInvoiceForm fractionalCentForm =
      .ok ⟨"f47ac10b-58cc-4372-a567-0e02b2c3d479", 3101 / 200, .pending⟩ ∧
    (createInvoice true "2026-10-11" fractionalCentForm).effects =
      [.sql (.insertRow "f47ac10b-58cc-4372-a567-0e02b2c3d479"
          ((3101 : ℚ) / 2) .pending "2026-10-11"),
       .revalidatePath "/dashboard/invoices",
       .redirect "/dashboard/invoices"] ∧
    ((3101 : ℚ) / 200 * 100).den ≠ 1 ∧
    ⌊(3101 : ℚ) / 200 * 100⌋ = 1550 ∧
    round ((3101 : ℚ) / 200 * 100) = 1551 ∧
    (3101 : ℚ) / 200 * 100 ≠ ((1550 : ℤ) : ℚ) ∧
    (3101 : ℚ) / 200 * 100 ≠ ((1551 : ℤ) : ℚ) := by
  refine ⟨by decide, by decide, by decide, ?_, ?_, by decide, by decide⟩
  · norm_num
  · norm_num [round_eq]

/-- C1 (amended): for every validated submission with dollar amount `a`, the
value createInvoice and updateInvoice pass to the amount column is exactly
`a × 100`, with no truncation or rounding applied (so it agrees with
trunc(a × 100) = round(a × 100) exactly when `a × 100` is an integer, as for
amounts with at most two decimal places). -/
theorem C1_amount_is_exactly_hundredfold (dbOk : Bool) (today id : String)
    (fd : FormData) (d : ParsedInvoiceForm)
    (h : safeParseInvoiceForm fd = .ok d) :
    (createInvoice dbOk today fd).effects.head? =
      some (.sql (.insertRow d.customerId (d.amount * 100) d.status today)) ∧
    (isValidUUID id = true →
      (updateInvoice dbOk id fd).effects.head? =
        some (.sql (.updateRow id d.customerId (d.amount * 100) d.status))) := by
  constructor
  · unfold createInvoice
    rw [validatePayloadSizeDefault_true, h]
    cases dbOk <;> rfl
  · intro hid
    unfold updateInvoice
    rw [hid, validatePayloadSizeDefault_true, h]
    cases dbOk <;> rfl

/-- Witness for the amended C1 at amount `15.50`: the INSERT receives
exactly (31/2) × 100 = 1550. -/
theorem C1_amount_is_exactly_hundredfold_witness :
    (createInvoice true "2026-10-11" sampleCreateForm).effects.head? =
      some (.sql (.insertRow "f47ac10b-58cc-4372-a567-0e02b2c3d479"
        ((31 : ℚ) / 2 * 100) .pending "2026-10-11")) :=
  (C1_amount_is_exactly_hundredfold true "2026-10-11" "not-a-uuid"
    sampleCreateForm ⟨"f47ac10b-58cc-4372-a567-0e02b2c3d479", 31 / 2, .pending⟩
    (by decide)).1

set_option maxRecDepth 8192 in
/-- C2 fails on the code, and the code contradicts its own stated intent:
`validatePayloadSize` measures `new Blob([formData.toString()]).size`, but
`formData.toString()` is the constant `"[object FormData]"` (17 bytes), so
the guard accepts every submission; on a form whose serialized size is 1110
bytes (> 1024), createInvoice does not stop with the payload message but
proceeds into field validation. -/
theorem C2_payload_guard_never_fires :
    1024 < oversizedForm.serializedSize ∧
    blobSize oversizedForm.jsToString = 17 ∧
    validatePayloadSize oversizedForm 1 = true ∧
    (∀ fd : FormData, validatePayloadSize fd 1 = true) ∧
    (createInvoice true "2026-10-11" oversizedForm).result =
      .state ⟨some ⟨[], ["Please enter an amount greater than $0."],
          ["Please select an invoice status."]⟩,
        some "Missing Fields. Failed to Create Invoice."⟩ := by
  refine ⟨by decide, by decide, by decide, ?_, by decide⟩
  intro fd
  exact validatePayloadSizeDefault_true fd

/-- A string has length at least 1 iff it is non-empty. -/
theorem one_le_data_length_iff (s : String) : 1 ≤ s.data.length ↔ s ≠ "" := by
  obtain ⟨l⟩ := s
  cases l with
  | nil =>
      constructor
      · intro h
        exact absurd h (by decide)
      · intro h
        exact absurd rfl h
  | cons c cs =>
      constructor
      · intro _ h
        exact List.noConfusion (congrArg String.data h)
      · intro _
        exact Nat.succ_le_succ (Nat.zero_le _)

/-- A form value parses against the status enum iff it is the string
`pending` or the string `paid`. -/
theorem status_enum_iff (v : Option String) :
    (v = some "pending" ∨ v = some "paid") ↔ ∃ st, parseStatus v = some st := by
  cases v with
  | none => simp [parseStatus]
  | some s =>
      unfold parseStatus
      by_cases h1 : s = "pending"
      · subst h1
        simp
      · by_cases h2 : s = "paid"
        · subst h2
          simp [h1]
        · simp [h1, h2]

/-- Case analysis for `safeParseInvoiceForm`: it either fails with the
bundled field errors (and some field rule is violated), or succeeds on the
parsed values of the three fields, all rules satisfied. -/
theorem safeParseInvoiceForm_cases (fd : FormData) :
    (safeParseInvoiceForm fd = .error (mkFieldErrors fd) ∧
      ¬((∃ cid, fd.get "customerId" = some cid ∧ 1 ≤ cid.data.length) ∧
        (∃ q, jsCoerceNumber (fd.get "amount") = some q ∧ 0 < q ∧ q ≤ 1000000) ∧
        (∃ st, parseStatus (fd.get "status") = some st))) ∨
    (∃ cid q st,
      fd.get "customerId" = some cid ∧
      jsCoerceNumber (fd.get "amount") = some q ∧
      parseStatus (fd.get "status") = some st ∧
      1 ≤ cid.data.length ∧ 0 < q ∧ q ≤ 1000000 ∧
      safeParseInvoiceForm fd = .ok ⟨cid, q, st⟩) := by
  unfold safeParseInvoiceForm
  rcases hc : fd.get "customerId" with _ | cid <;>
    rcases ha : jsCoerceNumber (fd.get "amount") with _ | q <;>
      rcases hp : parseStatus (fd.get "status") with _ | st
  all_goals try exact Or.inl ⟨rfl, by simp⟩
  by_cases hcond : 1 ≤ cid.data.length ∧ 0 < q ∧ q ≤ 1000000
  · exact Or.inr ⟨cid, q, st, rfl, rfl, rfl, hcond.1, hcond.2.1, hcond.2.2,
      if_pos hcond⟩
  · refine Or.inl ⟨if_neg hcond, ?_⟩
    rintro ⟨⟨cid', h1, hlen⟩, ⟨q', h2, hq1, hq2⟩, ⟨st', h3⟩⟩
    injection h1 with h1'
    injection h2 with h2'
    subst h1'
    subst h2'
    exact hcond ⟨hlen, hq1, hq2⟩

/-- C5: the invoice field validator accepts a submission iff customerId is
a present, non-empty string, amount coerces to a number strictly greater
than 0 and at most 1,000,000, and status is `pending` or `paid`; every
amount ≤ 0 or > 1,000,000 fails with the field-specific message on the
amount field. -/
theorem C5_validator_characterization (fd : FormData) :
    ((∃ d, safeParseInvoiceForm fd = .ok d) ↔
      ((∃ s, fd.get "customerId" = some s ∧ s ≠ "") ∧
       (∃ q, jsCoerceNumber (fd.get "amount") = some q ∧ 0 < q ∧ q ≤ 1000000) ∧
       (fd.get "status" = some "pending" ∨ fd.get "status" = some "paid"))) ∧
    (∀ q, jsCoerceNumber (fd.get "amount") = some q → q ≤ 0 →
      ∃ e, safeParseInvoiceForm fd = .error e ∧
        e.amount = ["Please enter an amount greater than $0."]) ∧
    (∀ q, jsCoerceNumber (fd.get "amount") = some q → 1000000 < q →
      ∃ e, safeParseInvoiceForm fd = .error e ∧
        e.amount = ["Amount cannot exceed $1,000,000."]) := by
  refine ⟨⟨?_, ?_⟩, ?_, ?_⟩
  · rintro ⟨d, hd⟩
    rcases safeParseInvoiceForm_cases fd with ⟨herr, _⟩ |
      ⟨cid, q, st, h1, h2, h3, hlen, hq1, hq2, _⟩
    · rw [herr] at hd
      exact Except.noConfusion hd
    · exact ⟨⟨cid, h1, (one_le_data_length_iff cid).1 hlen⟩, ⟨q, h2, hq1, hq2⟩,
        (status_enum_iff _).2 ⟨st, h3⟩⟩
  · rintro ⟨⟨s, hs, hne⟩, ⟨q, hq, hq1, hq2⟩, hstatus⟩
    rcases safeParseInvoiceForm_cases fd with ⟨_, hviol⟩ |
      ⟨cid, q', st, _, _, _, _, _, _, hok⟩
    · exact absurd ⟨⟨s, hs, (one_le_data_length_iff s).2 hne⟩,
        ⟨q, hq, hq1, hq2⟩, (status_enum_iff _).1 hstatus⟩ hviol
    · exact ⟨_, hok⟩
  · intro q ha hq
    rcases safeParseInvoiceForm_cases fd with ⟨herr, _⟩ |
      ⟨cid, q', st, _, h2, _, _, hq1, _, _⟩
    · refine ⟨mkFieldErrors fd, herr, ?_⟩
      show amountErrors (fd.get "amount") = _
      unfold amountErrors
      rw [ha]
      show (if 0 < q then ([] : List String)
            else ["Please enter an amount greater than $0."]) ++
          (if q ≤ 1000000 then [] else ["Amount cannot exceed $1,000,000."]) = _
      rw [if_neg (not_lt.mpr hq), if_pos (le_trans hq (by norm_num))]
      rfl
    · rw [ha] at h2
      injection h2 with h2'
      subst h2'
      exact absurd hq1 (not_lt.mpr hq)
  · intro q ha hq
    rcases safeParseInvoiceForm_cases fd with ⟨herr, _⟩ |
      ⟨cid, q', st, _, h2, _, _, _, hq2, _⟩
    · refine ⟨mkFieldErrors fd, herr, ?_⟩
      show amountErrors (fd.get "amount") = _
      unfold amountErrors
      rw [ha]
      show (if 0 < q then ([] : List String)
            else ["Please enter an amount greater than $0."]) ++
          (if q ≤ 1000000 then [] else ["Amount cannot exceed $1,000,000."]) = _
      rw [if_pos (lt_trans (by norm_num) hq), if_neg (not_le.mpr hq)]
      rfl
    · rw [ha] at h2
      injection h2 with h2'
      subst h2'
      exact absurd hq2 (not_le.mpr hq)

/-- Witness for C5: amounts `-5` and `2000000` fail with the field-specific
messages on the amount field. -/
theorem C5_validator_characterization_witness :
    (∃ e, safeParseInvoiceForm ⟨[("customerId", "c1"), ("amount", "-5"),
        ("status", "pending")]⟩ = .error e ∧
      e.amount = ["Please enter an amount greater than $0."]) ∧
    (∃ e, safeParseInvoiceForm ⟨[("customerId", "c1"), ("amount", "2000000"),
        ("status", "pending")]⟩ = .error e ∧
      e.amount = ["Amount cannot exceed $1,000,000."]) :=
  ⟨(C5_validator_characterization ⟨[("customerId", "c1"), ("amount", "-5"),
      ("status", "pending")]⟩).2.1 (-5) (by decide) (by decide),
   (C5_validator_characterization ⟨[("customerId", "c1"), ("amount", "2000000"),
      ("status", "pending")]⟩).2.2 2000000 (by decide) (by decide)⟩

end Proofs

end Dashboard
